import Mathlib

set_option linter.unusedVariables false

/-!
Verification of the transferdb Oracle-to-MySQL reverse-engineering and
sync-planning engine, shallowly embedded from the Go sources:

* `src/pkg/reverser/rule.go` — the type mapper (built-in NUMBER mapping,
  rule-store override resolution, column-meta assembly);
* `src/pkg/reverse/o2m/table.go` — constraint/index translation and the
  collation resolution of `GenCreateTableSQL`;
* the sync-metadata store (`WaitSyncMeta` / `FullSyncMeta` operations and
  the ROWID chunk planner).

Go strings are modelled by `String`, Go `int` by `Int` (`strconv.Atoi` can
yield negative values), and the gorm-backed metadata store by an explicit
`MetaDB` record threaded through the operations.
-/

/-! ### String helpers mirroring the Go `strings` package (ASCII behaviour) -/

/-- `strings.ToUpper`, character by character (ASCII). -/
def strUpper (s : String) : String := String.mk (s.data.map Char.toUpper)

/-- The apostrophe character, used by the Go sources as a replacement for
double quotes inside comments. -/
def singleQuoteChar : Char := Char.ofNat 39

/-- Whitespace as recognised by Go's `\s` regexp class and (for ASCII input)
`strings.Fields` / `strings.TrimSpace`. -/
def goWs (c : Char) : Bool := c == ' ' || c == '\t' || c == '\n' || c == '\r' || c == '\x0c'

/-- Split a character list at every character satisfying `p`, keeping empty
segments (like `strings.Split` does). -/
def splitWhen (p : Char → Bool) : List Char → List (List Char)
  | [] => [[]]
  | c :: cs =>
    let r := splitWhen p cs
    if p c then [] :: r
    else
      match r with
      | [] => [[c]]
      | l :: ls => (c :: l) :: ls

/-- `strings.Split(s, string(ch))` for a one-character separator. -/
def goSplitChar (ch : Char) (s : String) : List String :=
  (splitWhen (fun c => c == ch) s.data).map String.mk

/-- `strings.Fields`: split on whitespace and drop empty fields. -/
def goFields (s : String) : List String :=
  ((splitWhen goWs s.data).map String.mk).filter (fun t => t != "")

/-- `strings.TrimSpace` (ASCII whitespace). -/
def trimGo (s : String) : String :=
  String.mk (((s.data.dropWhile goWs).reverse.dropWhile goWs).reverse)

/-- `strings.Join(parts, sep)`. -/
def joinWith (sep : String) : List String → String
  | [] => ""
  | [x] => x
  | x :: y :: rest => x ++ sep ++ joinWith sep (y :: rest)

/-- Does `pat` occur at the head of the character list? -/
def leadsWith : List Char → List Char → Bool
  | [], _ => true
  | _ :: _, [] => false
  | p :: ps, c :: cs => p == c && leadsWith ps cs

/-- Does `pat` occur anywhere in the character list? -/
def hasInfixChars (pat : List Char) : List Char → Bool
  | [] => leadsWith pat []
  | c :: cs => leadsWith pat (c :: cs) || hasInfixChars pat cs

/-- Case-insensitive substring test (`(?i:pat)` somewhere in `s`). -/
def containsCI (s pat : String) : Bool :=
  hasInfixChars (pat.data.map Char.toUpper) (s.data.map Char.toUpper)

/-! ### Rule store records (`service` package) -/

/-- `service.ColumnRuleMap`: a column-scope data-type override. -/
structure ColumnRuleMap where
  sourceColumnName : String
  sourceColumnType : String
  targetColumnType : String
  deriving DecidableEq, Inhabited

/-- `service.TableRuleMap`: a table-scope data-type override. -/
structure TableRuleMap where
  sourceColumnType : String
  targetColumnType : String
  deriving DecidableEq, Inhabited

/-- `service.SchemaRuleMap`: a schema-scope data-type override. -/
structure SchemaRuleMap where
  sourceColumnType : String
  targetColumnType : String
  deriving DecidableEq, Inhabited

/-- `service.DefaultValueMap`: a default-value override. -/
structure DefaultValueMap where
  sourceDefaultValue : String
  targetDefaultValue : String
  deriving DecidableEq, Inhabited

/-! ### Type mapper (`src/pkg/reverser/rule.go`) -/

/-- `loadDataTypeRuleOnlyUsingColumn` (rule.go lines 486-498): first column
rule whose name and source type match (case-insensitively) and whose target
type is non-empty wins; otherwise the built-in type. -/
def loadDataTypeRuleOnlyUsingColumn (columnName originColumnType buildInColumnType : String) :
    List ColumnRuleMap → String
  | [] => buildInColumnType
  | col :: rest =>
    if strUpper col.sourceColumnName == strUpper columnName &&
        strUpper col.sourceColumnType == strUpper originColumnType &&
        col.targetColumnType != "" then
      col.targetColumnType
    else loadDataTypeRuleOnlyUsingColumn columnName originColumnType buildInColumnType rest

/-- `loadDataTypeRuleOnlyUsingTable` (rule.go lines 443-453). -/
def loadDataTypeRuleOnlyUsingTable (originColumnType buildInColumnType : String) :
    List TableRuleMap → String
  | [] => buildInColumnType
  | tbl :: rest =>
    if strUpper tbl.sourceColumnType == strUpper originColumnType &&
        tbl.targetColumnType != "" then
      tbl.targetColumnType
    else loadDataTypeRuleOnlyUsingTable originColumnType buildInColumnType rest

/-- `loadDataTypeRuleOnlyUsingSchema` (rule.go lines 455-466). -/
def loadDataTypeRuleOnlyUsingSchema (originColumnType buildInColumnType : String) :
    List SchemaRuleMap → String
  | [] => buildInColumnType
  | tbl :: rest =>
    if strUpper tbl.sourceColumnType == strUpper originColumnType &&
        tbl.targetColumnType != "" then
      tbl.targetColumnType
    else loadDataTypeRuleOnlyUsingSchema originColumnType buildInColumnType rest

/-- `loadDataTypeRuleUsingTableAndSchema` (rule.go lines 468-484): the table
hit takes precedence over the schema hit when both differ from the built-in
type. -/
def loadDataTypeRuleUsingTableAndSchema (originColumnType buildInColumnType : String)
    (tableDataTypeMapSlice : List TableRuleMap)
    (schemaDataTypeMapSlice : List SchemaRuleMap) : String :=
  let customTableDataType :=
    loadDataTypeRuleOnlyUsingTable originColumnType buildInColumnType tableDataTypeMapSlice
  let customSchemaDataType :=
    loadDataTypeRuleOnlyUsingSchema originColumnType buildInColumnType schemaDataTypeMapSlice
  if customTableDataType = buildInColumnType ∧ customSchemaDataType ≠ buildInColumnType then
    customSchemaDataType
  else if customTableDataType ≠ buildInColumnType ∧ customSchemaDataType = buildInColumnType then
    customTableDataType
  else if customTableDataType ≠ buildInColumnType ∧ customSchemaDataType ≠ buildInColumnType then
    customTableDataType
  else buildInColumnType

/-- `loadDataTypeRuleUsingTableOrSchema` (rule.go lines 424-441); the Go
`default: panic` branch is unreachable because the four length cases are
exhaustive. -/
def loadDataTypeRuleUsingTableOrSchema (originColumnType buildInColumnType : String)
    (tableDataTypeMapSlice : List TableRuleMap)
    (schemaDataTypeMapSlice : List SchemaRuleMap) : String :=
  match tableDataTypeMapSlice, schemaDataTypeMapSlice with
  | t :: ts, [] => loadDataTypeRuleOnlyUsingTable originColumnType buildInColumnType (t :: ts)
  | t :: ts, s :: ss =>
    loadDataTypeRuleUsingTableAndSchema originColumnType buildInColumnType (t :: ts) (s :: ss)
  | [], s :: ss => loadDataTypeRuleOnlyUsingSchema originColumnType buildInColumnType (s :: ss)
  | [], [] => buildInColumnType

/-- `changeOracleTableColumnType` (rule.go lines 324-348): resolve the final
column type from the built-in type and the column/table/schema rule slices.
When the column-rule slice is empty the table-or-schema result is returned
directly (note: without `strings.ToUpper`). -/
def changeOracleTableColumnType (columnName originColumnType buildInColumnType : String)
    (columnDataTypeMapSlice : List ColumnRuleMap)
    (tableDataTypeMapSlice : List TableRuleMap)
    (schemaDataTypeMapSlice : List SchemaRuleMap) : String :=
  match columnDataTypeMapSlice with
  | [] =>
    loadDataTypeRuleUsingTableOrSchema originColumnType buildInColumnType
      tableDataTypeMapSlice schemaDataTypeMapSlice
  | c :: cs =>
    let columnTypeFromColumn :=
      loadDataTypeRuleOnlyUsingColumn columnName originColumnType buildInColumnType (c :: cs)
    let columnTypeFromOther :=
      loadDataTypeRuleUsingTableOrSchema originColumnType buildInColumnType
        tableDataTypeMapSlice schemaDataTypeMapSlice
    if columnTypeFromColumn ≠ buildInColumnType ∧ columnTypeFromOther = buildInColumnType then
      strUpper columnTypeFromColumn
    else if columnTypeFromColumn ≠ buildInColumnType ∧ columnTypeFromOther ≠ buildInColumnType then
      strUpper columnTypeFromColumn
    else if columnTypeFromColumn = buildInColumnType ∧ columnTypeFromOther ≠ buildInColumnType then
      strUpper columnTypeFromOther
    else strUpper buildInColumnType

/-- The `NUMBER` branch of `ReverseOracleTableColumnMapRule` (rule.go lines
73-102): the original Oracle column type string. If the scale is negative
neither Go case fires and the variable keeps its zero value `""`. -/
def numberOriginColumnType (dataPrecision dataScale : Int) : String :=
  if dataScale > 0 then
    "NUMBER(" ++ toString dataPrecision ++ "," ++ toString dataScale ++ ")"
  else if dataScale = 0 then
    if dataPrecision = 0 ∧ dataScale = 0 then "NUMBER"
    else "NUMBER(" ++ toString dataPrecision ++ ")"
  else ""

/-- The `NUMBER` branch of `ReverseOracleTableColumnMapRule` (rule.go lines
73-102): the built-in target type. -/
def numberBuildInColumnType (dataPrecision dataScale : Int) : String :=
  if dataScale > 0 then
    "DECIMAL(" ++ toString dataPrecision ++ "," ++ toString dataScale ++ ")"
  else if dataScale = 0 then
    if dataPrecision = 0 ∧ dataScale = 0 then "DECIMAL(65,30)"
    else if 1 ≤ dataPrecision ∧ dataPrecision < 3 then "TINYINT"
    else if 3 ≤ dataPrecision ∧ dataPrecision < 5 then "SMALLINT"
    else if 5 ≤ dataPrecision ∧ dataPrecision < 9 then "INT"
    else if 9 ≤ dataPrecision ∧ dataPrecision < 19 then "BIGINT"
    else if 19 ≤ dataPrecision ∧ dataPrecision ≤ 38 then
      "DECIMAL(" ++ toString dataPrecision ++ ")"
    else "DECIMAL(" ++ toString dataPrecision ++ ",4)"
  else ""

/-- `ReverseOracleTableColumnMapRule` on a `NUMBER` column when the rule
store holds no overrides (all three rule slices empty): the resulting
column type fed into the column meta. -/
def ReverseOracleNumberColumnMapNoRules (dataPrecision dataScale : Int) : String :=
  changeOracleTableColumnType "COL"
    (numberOriginColumnType dataPrecision dataScale)
    (numberBuildInColumnType dataPrecision dataScale) [] [] []

/-! #### Specification-side resolution (claim C2, amended) -/

/-- Specified from the spec wording: the column-scope hit — the first
column rule matching by column name and source type with a non-empty
target type, defaulting to the built-in type. -/
def columnHitSpec (columnName originColumnType buildInColumnType : String)
    (rules : List ColumnRuleMap) : String :=
  match rules.find? (fun col =>
      strUpper col.sourceColumnName == strUpper columnName &&
      strUpper col.sourceColumnType == strUpper originColumnType &&
      col.targetColumnType != "") with
  | some col => col.targetColumnType
  | none => buildInColumnType

/-- Specified from the spec wording: the table-scope hit. -/
def tableHitSpec (originColumnType buildInColumnType : String)
    (rules : List TableRuleMap) : String :=
  match rules.find? (fun tbl =>
      strUpper tbl.sourceColumnType == strUpper originColumnType &&
      tbl.targetColumnType != "") with
  | some tbl => tbl.targetColumnType
  | none => buildInColumnType

/-- Specified from the spec wording: the schema-scope hit. -/
def schemaHitSpec (originColumnType buildInColumnType : String)
    (rules : List SchemaRuleMap) : String :=
  match rules.find? (fun tbl =>
      strUpper tbl.sourceColumnType == strUpper originColumnType &&
      tbl.targetColumnType != "") with
  | some tbl => tbl.targetColumnType
  | none => buildInColumnType

/-- Specified from the spec wording: the combined table-else-schema hit,
with the table scope taking precedence whenever it differs from the
built-in type. -/
def otherHitSpec (originColumnType buildInColumnType : String)
    (ts : List TableRuleMap) (ss : List SchemaRuleMap) : String :=
  if tableHitSpec originColumnType buildInColumnType ts ≠ buildInColumnType then
    tableHitSpec originColumnType buildInColumnType ts
  else schemaHitSpec originColumnType buildInColumnType ss

/-- Specified from the spec wording, as amended by claim C2's
counterexample: precedence is strictly column > table > schema with a
short-circuit at the first override differing from the built-in type; the
result is uppercased when the column-rule slice is non-empty, and returned
unchanged when the column-rule slice is empty. -/
def resolveColumnTypeSpec (columnName originColumnType buildInColumnType : String)
    (cs : List ColumnRuleMap) (ts : List TableRuleMap) (ss : List SchemaRuleMap) : String :=
  match cs with
  | [] => otherHitSpec originColumnType buildInColumnType ts ss
  | _ :: _ =>
    let columnHit := columnHitSpec columnName originColumnType buildInColumnType cs
    let otherHit := otherHitSpec originColumnType buildInColumnType ts ss
    if columnHit ≠ buildInColumnType then strUpper columnHit
    else if otherHit ≠ buildInColumnType then strUpper otherHit
    else strUpper buildInColumnType

/-! ### Sync-metadata store (`service` package, `src/unnamed/part_000`) -/

/-- A `full_sync_meta` row: one row per ROWID chunk. -/
structure FullSyncMeta where
  sourceSchemaName : String
  sourceTableName : String
  rowidSQL : String
  isPartition : String
  globalSCN : Int
  deriving DecidableEq, Inhabited

/-- A `wait_sync_meta` row: the per-table full-sync lifecycle record. -/
structure WaitSyncMeta where
  sourceSchemaName : String
  sourceTableName : String
  syncMode : String
  fullGlobalSCN : Int
  fullSplitTimes : Int
  isPartition : String
  deriving DecidableEq, Inhabited

/-- The durable metadata store, plus the set of Oracle-side
`DBMS_PARALLEL_EXECUTE` task names currently alive. -/
structure MetaDB where
  fullSyncMetas : List FullSyncMeta
  waitSyncMetas : List WaitSyncMeta
  chunkTasks : List String
  deriving DecidableEq, Inhabited

/-- The Oracle-side facts consumed by `InitWaitAndFullSyncMetaRecord` for
one table: the statistics row count, the `PARTITIONED` flag, and the `CMD`
strings produced by the chunk query for the created task. -/
structure OracleTableEnv where
  tableRows : Int
  isPartition : String
  chunkRows : List String
  deriving DecidableEq, Inhabited

/-- The `WHERE` clause used by `ModifyWaitAndFullSyncTableMetaRecord` and
`UpdateWaitSyncMetaTableRecord` on `wait_sync_meta`: stored schema and
table names are compared against the uppercased parameters, the sync mode
as given. -/
def waitKeyMatches (w : WaitSyncMeta) (schemaName tableName syncMode : String) : Bool :=
  w.sourceSchemaName == strUpper schemaName &&
  w.sourceTableName == strUpper tableName &&
  w.syncMode == syncMode

/-- The `WHERE` clause used by `ModifyWaitAndFullSyncTableMetaRecord` on
`full_sync_meta`: schema and table against the uppercased parameters, and
`upper(rowid_sql)` against the uppercased rowid predicate. -/
def fullKeyMatches (f : FullSyncMeta) (schemaName tableName rowidSQL : String) : Bool :=
  f.sourceSchemaName == strUpper schemaName &&
  f.sourceTableName == strUpper tableName &&
  strUpper f.rowidSQL == strUpper rowidSQL

/-- `UpdateWaitSyncMetaTableRecord` (part_000 lines 229-248): normalise a
zero row count to 1, then write SCN, split times and partition flag into
every matching `wait_sync_meta` row. -/
def UpdateWaitSyncMetaTableRecord (schemaName tableName : String) (rowCounts globalSCN : Int)
    (isPartition syncMode : String) (db : MetaDB) : MetaDB :=
  let rc := if rowCounts = 0 then 1 else rowCounts
  { db with waitSyncMetas := db.waitSyncMetas.map (fun w =>
      if waitKeyMatches w schemaName tableName syncMode then
        { w with fullGlobalSCN := globalSCN, fullSplitTimes := rc, isPartition := isPartition }
      else w) }

/-- `ModifyWaitAndFullSyncTableMetaRecord` (part_000 lines 77-110): inside
one gorm transaction, delete the matching `full_sync_meta` rows and
decrement `full_split_times` of the matching `wait_sync_meta` rows. The
two `fail*` flags stand for the database reporting an error on the
corresponding statement; an error rolls the whole transaction back, so the
caller's store is unchanged and `false` is returned. -/
def ModifyWaitAndFullSyncTableMetaRecord
    (metaSchemaName sourceSchemaName sourceTableName rowidSQL syncMode : String)
    (failDelete failUpdate : Bool) (db : MetaDB) : MetaDB × Bool :=
  if failDelete then (db, false)
  else
    let db1 : MetaDB :=
      { db with fullSyncMetas := db.fullSyncMetas.filter (fun f =>
          !(fullKeyMatches f sourceSchemaName sourceTableName rowidSQL)) }
    if failUpdate then (db, false)
    else
      ({ db1 with waitSyncMetas := db1.waitSyncMetas.map (fun w =>
          if waitKeyMatches w sourceSchemaName sourceTableName syncMode then
            { w with fullSplitTimes := w.fullSplitTimes - 1 }
          else w) }, true)

/-- Modelled from the spec: `utils.SplitIntSlice` (the repository's `utils`
package is not among the provided sources). Chunk Planner step 5 splits the
index slice into `num` contiguous groups covering the slice in order; the
first `num - 1` groups take `len / num` indices each and the last group
takes the rest. -/
def splitIntSlice (arr : List Nat) (num : Nat) : List (List Nat) :=
  if num = 0 then [arr]
  else
    let q := arr.length / num
    (List.range (num - 1)).map (fun i => (arr.drop (i * q)).take q) ++
      [arr.drop ((num - 1) * q)]

/-- The batched-insert loop of `GetOracleTableChunksByRowID` (part_000
lines 487-499): the Go `fullMetaBatch` slice is declared outside the loop
and never reset, so each `Create` call inserts the accumulated batch. -/
def insertChunkBatches (fullMetas : List FullSyncMeta) (groups : List (List Nat))
    (db : MetaDB) : MetaDB :=
  (groups.foldl
    (fun (acc : MetaDB × List FullSyncMeta) ms =>
      let batch := acc.2 ++ ms.map (fun idx => fullMetas.getD idx default)
      ({ acc.1 with fullSyncMetas := acc.1.fullSyncMetas ++ batch }, batch))
    (db, [])).1

/-- `GetOracleTableChunksByRowID` (part_000 lines 435-502): `res` is the
list of `CMD` strings returned by the chunk query. Returns the updated
store and the Go return value `len(res)`. -/
def GetOracleTableChunksByRowID (schemaName tableName : String) (globalSCN : Int)
    (insertBatchSize : Nat) (isPartition : String) (res : List String)
    (db : MetaDB) : MetaDB × Nat :=
  match res with
  | [] =>
    let sql := "SELECT * FROM " ++ schemaName ++ "." ++ tableName
    ({ db with fullSyncMetas := db.fullSyncMetas ++
        [{ sourceSchemaName := schemaName, sourceTableName := tableName,
           rowidSQL := sql, isPartition := isPartition, globalSCN := globalSCN }] }, 0)
  | _ :: _ =>
    let fullMetas := res.map (fun cmd =>
      ({ sourceSchemaName := strUpper schemaName, sourceTableName := strUpper tableName,
         rowidSQL := cmd, isPartition := isPartition, globalSCN := globalSCN } : FullSyncMeta))
    let fullMetaIdx := List.range fullMetas.length
    if fullMetas.length ≤ insertBatchSize then
      ({ db with fullSyncMetas := db.fullSyncMetas ++ fullMetas }, res.length)
    else
      let splitNums := fullMetas.length / insertBatchSize
      (insertChunkBatches fullMetas (splitIntSlice fullMetaIdx splitNums) db, res.length)

/-- `InitWaitAndFullSyncMetaRecord` (part_000 lines 152-210): plan one
table. A zero statistics row count writes one synthetic full-table
`full_sync_meta` row and updates `wait_sync_meta` without touching the
Oracle chunk tasks; otherwise a chunk task is created, the chunks are
materialised, `wait_sync_meta` is updated with the chunk count and the
task is dropped again. -/
def InitWaitAndFullSyncMetaRecord (env : OracleTableEnv) (schemaName tableName : String)
    (workerID globalSCN : Int) (chunkSize insertBatchSize : Nat) (syncMode : String)
    (db : MetaDB) : MetaDB :=
  if env.tableRows = 0 then
    let sql := "SELECT * FROM " ++ schemaName ++ "." ++ tableName
    let db1 : MetaDB :=
      { db with fullSyncMetas := db.fullSyncMetas ++
          [{ sourceSchemaName := strUpper schemaName, sourceTableName := strUpper tableName,
             rowidSQL := sql, isPartition := env.isPartition, globalSCN := globalSCN }] }
    UpdateWaitSyncMetaTableRecord schemaName tableName env.tableRows globalSCN
      env.isPartition syncMode db1
  else
    let taskName := schemaName ++ "_" ++ tableName ++ "_TASK" ++ toString workerID
    let db1 : MetaDB := { db with chunkTasks := db.chunkTasks ++ [taskName] }
    let pr := GetOracleTableChunksByRowID (strUpper schemaName) (strUpper tableName)
      globalSCN insertBatchSize env.isPartition env.chunkRows db1
    let db2 := UpdateWaitSyncMetaTableRecord schemaName tableName (pr.2 : Int) globalSCN
      env.isPartition syncMode pr.1
    { db2 with chunkTasks := db2.chunkTasks.filter (fun t => t != taskName) }

/-! ### Check-constraint translator (`src/pkg/reverse/o2m/table.go`,
`reverserOracleTableCKToMySQL`, lines 814-898) -/

/-- Go regexp `\s+(?i:AND)\s+|\s+(?i:OR)\s+` applied to the trimmed search
condition: for a trimmed string this holds exactly when some whitespace
field other than the first or the last equals `AND` or `OR`
case-insensitively (such a field has whitespace on both sides). -/
def isConn (t : String) : Bool := strUpper t == "AND" || strUpper t == "OR"

/-- See `isConn`: the connector regexp on a trimmed string. -/
def rMatch (s : String) : Bool :=
  let toks := goFields s
  (List.range toks.length).any (fun i =>
    decide (0 < i) && decide (i + 1 < toks.length) && isConn (toks.getD i ""))

/-- Go regexp `(^.*)(?i:IS NOT NULL)`: since `^` anchors the match at the
start and `.` does not cross a newline, this holds exactly when the first
line contains `IS NOT NULL` case-insensitively. -/
def matchRexMatch (s : String) : Bool :=
  containsCI (String.mk (s.data.takeWhile (fun c => c != '\n'))) "IS NOT NULL"

/-- Go regexp `(.*)(?i:IS NOT NULL)`: holds exactly when the string
contains `IS NOT NULL` case-insensitively. -/
def checkRexMatch (s : String) : Bool := containsCI s "IS NOT NULL"

/-- `strings.Join(strArray[a:b], " ")`. -/
def segmentJoin (toks : List String) (a b : Nat) : String :=
  joinWith " " ((toks.drop a).take (b - a))

/-- The `(idxArray[idx-1], val)` pairs of the clause-splitting loop: the
connector positions with the token count appended, paired with their
predecessors (starting from 0). -/
def connectorPairs (toks : List String) : List (Nat × Nat) :=
  let idxs := ((List.range toks.length).filter (fun i => isConn (toks.getD i ""))) ++
    [toks.length]
  (0 :: idxs).zip idxs

/-- The token list `d` of the connector branch (table.go lines 850-881):
split the fields at the connector positions, trim each clause, drop every
clause containing `IS NOT NULL`, re-join and re-split into fields. -/
def ckD (toks : List String) : List String :=
  let checkArray := (connectorPairs toks).map (fun ab => segmentJoin toks ab.1 ab.2)
  let constraintArray := (checkArray.map trimGo).filter (fun v => !(checkRexMatch v))
  goFields (joinWith " " constraintArray)

/-- The connector branch of `reverserOracleTableCKToMySQL` (table.go lines
848-892). The Go code indexes `d[0]` and `d[len(d)-1]` unconditionally;
`none` models the resulting index-out-of-range panic when the respective
list is empty. -/
def ckRowConnectorBranch (constraintName : String) (toks : List String) : Option String :=
  match ckD toks with
  | [] => none
  | d0 :: rest =>
    let d1 := if isConn d0 then rest else d0 :: rest
    match d1.getLast? with
    | none => none
    | some dn =>
      let d2 := if isConn dn then d1.dropLast else d1
      some ("CONSTRAINT `" ++ strUpper constraintName ++ "` CHECK (" ++
        joinWith " " d2 ++ ")")

/-- One row of `reverserOracleTableCKToMySQL` (table.go lines 838-894):
`none` models a Go panic; `some fs` yields the (zero or one) emitted
fragments. The no-connector branch emits the original, untrimmed search
condition. -/
def ckRow (constraintName searchCondition : String) : Option (List String) :=
  if rMatch (trimGo searchCondition) then
    match ckRowConnectorBranch constraintName (goFields (trimGo searchCondition)) with
    | some frag => some [frag]
    | none => none
  else if matchRexMatch (trimGo searchCondition) then some []
  else
    some ["CONSTRAINT `" ++ strUpper constraintName ++ "` CHECK (" ++ searchCondition ++ ")"]

/-- `reverserOracleTableCKToMySQL` over the catalog rows, each row a
`(CONSTRAINT_NAME, SEARCH_CONDITION)` pair; `none` models a Go panic on
some row. -/
def reverserOracleTableCKToMySQL : List (String × String) → Option (List String)
  | [] => some []
  | r :: rs =>
    match ckRow r.1 r.2, reverserOracleTableCKToMySQL rs with
    | some fs, some ks => some (fs ++ ks)
    | _, _ => none

/-- The exact condition under which the connector branch hits an
out-of-range index on the Go slice `d`: the filtered token list is empty,
or holds a single dangling connector (which the first trim removes before
`d[len(d)-1]` is read). -/
def ckPanics (searchCondition : String) : Bool :=
  rMatch (trimGo searchCondition) &&
    (match ckD (goFields (trimGo searchCondition)) with
     | [] => true
     | [t] => isConn t
     | _ => false)

/-! ### Primary key translator (`src/pkg/reverse/o2m/table.go`,
`reverserOracleTablePKToMySQL`, lines 728-749) -/

/-- `reverserOracleTablePKToMySQL`: `primaryKeyMap` holds the `COLUMN_LIST`
value of each catalog row. More than one row fails; one row yields the
uppercased `PRIMARY KEY` fragment plus the backticked column list. -/
def reverserOracleTablePKToMySQL (sourceSchemaName sourceTableName : String)
    (primaryKeyMap : List String) : Except String (List String × List String) :=
  if primaryKeyMap.length > 1 then
    Except.error ("oracle schema [" ++ sourceSchemaName ++ "] table [" ++ sourceTableName ++
      "] primary key exist multiple values")
  else
    match primaryKeyMap with
    | [] => Except.ok ([], [])
    | columnList :: _ =>
      let pkArr := (goSplitChar ',' columnList).map (fun col => "`" ++ col ++ "`")
      let pk := "PRIMARY KEY (" ++ strUpper (joinWith "," pkArr) ++ ")"
      Except.ok ([pk], pkArr)

/-! ### Collation resolution (`src/pkg/reverse/o2m/table.go`,
`GenCreateTableSQL`, lines 62-89) -/

/-- Lookup in the fixed Oracle-to-MySQL collation map (`utils`
package, passed here as an association list). -/
def lookupCollation (collationMap : List (String × String)) (key : String) : Option String :=
  (collationMap.find? (fun kv => kv.1 == key)).map (fun kv => kv.2)

/-- The collation-resolution prefix of `GenCreateTableSQL` (table.go lines
62-89), returning the resolved `COLLATE` value or the error that aborts
the function. The third guard compares `SourceTableName` — not
`SourceTableCollation` — with the empty string, exactly as the source
does. -/
def GenCreateTableSQLCollation (collationMap : List (String × String))
    (oracleCollation : Bool)
    (sourceTableName sourceTableCollation sourceSchemaCollation : String)
    (sourceDBNLSSort sourceDBNLSComp : String) : Except String String :=
  if oracleCollation then
    let step1 : Except String String :=
      if sourceTableCollation ≠ "" then
        match lookupCollation collationMap sourceTableCollation with
        | some val => Except.ok val
        | none => Except.error ("oracle table collation [" ++ sourceTableCollation ++
            "] isn't support")
      else Except.ok ""
    match step1 with
    | Except.error e => Except.error e
    | Except.ok c1 =>
      let step2 : Except String String :=
        if sourceTableCollation = "" ∧ sourceSchemaCollation ≠ "" then
          match lookupCollation collationMap sourceSchemaCollation with
          | some val => Except.ok val
          | none => Except.error ("oracle schema collation [" ++ sourceSchemaCollation ++
              "] table collation [" ++ sourceTableCollation ++ "] isn't support")
        else Except.ok c1
      match step2 with
      | Except.error e => Except.error e
      | Except.ok c2 =>
        if sourceTableName = "" ∧ sourceSchemaCollation = "" then
          Except.error ("oracle schema collation [" ++ sourceSchemaCollation ++
            "] table collation [" ++ sourceTableCollation ++ "] isn't support")
        else Except.ok c2
  else
    match lookupCollation collationMap sourceDBNLSComp with
    | some val => Except.ok val
    | none => Except.error ("oracle db nls_comp [" ++ sourceDBNLSComp ++ "] nls_sort [" ++
        sourceDBNLSSort ++ "] isn't support")

/-! ### Column-meta assembly (`src/pkg/reverser/rule.go`,
`generateOracleTableColumnMeta`, lines 350-409) -/

/-- `strings.Replace(s, "\"", "'", -1)`: every double quote becomes a
single quote. -/
def replaceQuotes (s : String) : String :=
  String.mk (s.data.map (fun c => if c == '"' then singleQuoteChar else c))

/-- Go regexp `'(.*)'`: since `.` does not cross a newline, this holds
exactly when some newline-free stretch of the string holds two single
quotes, i.e. some line contains at least two single quotes. -/
def matchQuoteSpan (s : String) : Bool :=
  (splitWhen (fun c => c == '\n') s.data).any (fun line =>
    decide (2 ≤ (line.filter (fun c => c == singleQuoteChar)).length))

/-- The comment fragment of `generateOracleTableColumnMeta` (rule.go lines
365-375): double quotes are replaced by single quotes, then the comment is
wrapped in double quotes when it matches `'(.*)'` and in single quotes
otherwise; an empty comment yields the empty fragment. -/
def genColumnCommentFragment (comments : String) : String :=
  if comments ≠ "" then
    let c := if comments.data.any (fun ch => ch == '"') then replaceQuotes comments
      else comments
    if matchQuoteSpan c then "\"" ++ c ++ "\"" else "'" ++ c ++ "'"
  else ""

/-- `loadDataDefaultValueRule` (rule.go lines 411-422). -/
def loadDataDefaultValueRule (defaultValue : String) : List DefaultValueMap → String
  | [] => defaultValue
  | dv :: rest =>
    if strUpper dv.sourceDefaultValue == strUpper defaultValue &&
        dv.targetDefaultValue != "" then
      dv.targetDefaultValue
    else loadDataDefaultValueRule defaultValue rest

/-- `generateOracleTableColumnMeta` (rule.go lines 350-409). -/
def generateOracleTableColumnMeta (columnName columnType dataNullable comments
    defaultValue : String) (defaultValueMapSlice : List DefaultValueMap) : String :=
  let nullable := if dataNullable = "Y" then "NULL" else "NOT NULL"
  let comment := genColumnCommentFragment comments
  let dataDefault :=
    if defaultValue ≠ "" then loadDataDefaultValueRule defaultValue defaultValueMapSlice
    else defaultValue
  if nullable = "NULL" then
    if comment ≠ "" ∧ dataDefault ≠ "" then
      "`" ++ columnName ++ "` " ++ columnType ++ " DEFAULT " ++ dataDefault ++
        " COMMENT " ++ comment
    else if comment ≠ "" ∧ dataDefault = "" then
      "`" ++ columnName ++ "` " ++ columnType ++ " COMMENT " ++ comment
    else if comment = "" ∧ dataDefault ≠ "" then
      "`" ++ columnName ++ "` " ++ columnType ++ " DEFAULT " ++ dataDefault
    else "`" ++ columnName ++ "` " ++ columnType
  else
    if comment ≠ "" ∧ dataDefault ≠ "" then
      "`" ++ columnName ++ "` " ++ columnType ++ " " ++ nullable ++ " DEFAULT " ++
        dataDefault ++ " COMMENT " ++ comment
    else if comment ≠ "" ∧ dataDefault = "" then
      "`" ++ columnName ++ "` " ++ columnType ++ " " ++ nullable ++ " COMMENT " ++ comment
    else if comment = "" ∧ dataDefault ≠ "" then
      "`" ++ columnName ++ "` " ++ columnType ++ " " ++ nullable ++ " DEFAULT " ++ dataDefault
    else "`" ++ columnName ++ "` " ++ columnType ++ " " ++ nullable

/-! ### Concrete stores used by witnesses -/

/-- An empty metadata store. -/
def emptyMetaDB : MetaDB := { fullSyncMetas := [], waitSyncMetas := [], chunkTasks := [] }

/-- A store holding one pristine `wait_sync_meta` row for table `S.T`. -/
def sampleWaitDB : MetaDB :=
  { fullSyncMetas := [],
    waitSyncMetas := [⟨"S", "T", "full", -1, -1, ""⟩],
    chunkTasks := [] }

/-- A store holding one chunk row (`S`, `T`, `SQL1`, not partitioned,
SCN 5) and one planned `wait_sync_meta` row with split times 3. -/
def sampleChunkDB : MetaDB :=
  { fullSyncMetas := [⟨"S", "T", "SQL1", "NO", 5⟩],
    waitSyncMetas := [⟨"S", "T", "full", 5, 3, "NO"⟩],
    chunkTasks := [] }

/-! ## Helper lemmas -/

theorem fullsync_filter_length (sourceSchemaName sourceTableName rowidSQL : String)
    (l : List FullSyncMeta) :
    (l.filter (fun f => fullKeyMatches f sourceSchemaName sourceTableName rowidSQL)).length +
      (l.filter (fun f =>
        !(fullKeyMatches f sourceSchemaName sourceTableName rowidSQL))).length = l.length := by
  induction l with
  | nil => rfl
  | cons a t ih =>
    cases h : fullKeyMatches a sourceSchemaName sourceTableName rowidSQL <;>
      simp [List.filter_cons, h] <;> omega

theorem loadColumn_eq_spec (cn oct b : String) (cs : List ColumnRuleMap) :
    loadDataTypeRuleOnlyUsingColumn cn oct b cs = columnHitSpec cn oct b cs := by
  induction cs with
  | nil => rfl
  | cons c rest ih =>
    cases h : (strUpper c.sourceColumnName == strUpper cn &&
        strUpper c.sourceColumnType == strUpper oct && c.targetColumnType != "") with
    | true => simp [loadDataTypeRuleOnlyUsingColumn, columnHitSpec, List.find?, h]
    | false => simp [loadDataTypeRuleOnlyUsingColumn, columnHitSpec, List.find?, h, ih]

theorem loadTable_eq_spec (oct b : String) (ts : List TableRuleMap) :
    loadDataTypeRuleOnlyUsingTable oct b ts = tableHitSpec oct b ts := by
  induction ts with
  | nil => rfl
  | cons t rest ih =>
    cases h : (strUpper t.sourceColumnType == strUpper oct && t.targetColumnType != "") with
    | true => simp [loadDataTypeRuleOnlyUsingTable, tableHitSpec, List.find?, h]
    | false => simp [loadDataTypeRuleOnlyUsingTable, tableHitSpec, List.find?, h, ih]

theorem loadSchema_eq_spec (oct b : String) (ss : List SchemaRuleMap) :
    loadDataTypeRuleOnlyUsingSchema oct b ss = schemaHitSpec oct b ss := by
  induction ss with
  | nil => rfl
  | cons s rest ih =>
    cases h : (strUpper s.sourceColumnType == strUpper oct && s.targetColumnType != "") with
    | true => simp [loadDataTypeRuleOnlyUsingSchema, schemaHitSpec, List.find?, h]
    | false => simp [loadDataTypeRuleOnlyUsingSchema, schemaHitSpec, List.find?, h, ih]

theorem loadTableOrSchema_eq_spec (oct b : String) (ts : List TableRuleMap)
    (ss : List SchemaRuleMap) :
    loadDataTypeRuleUsingTableOrSchema oct b ts ss = otherHitSpec oct b ts ss := by
  cases ts with
  | nil =>
    cases ss with
    | nil =>
      simp [loadDataTypeRuleUsingTableOrSchema, otherHitSpec, tableHitSpec, schemaHitSpec]
    | cons s ss2 =>
      simp [loadDataTypeRuleUsingTableOrSchema, otherHitSpec, tableHitSpec,
        loadSchema_eq_spec]
  | cons t ts2 =>
    cases ss with
    | nil =>
      by_cases hT : tableHitSpec oct b (t :: ts2) = b <;>
        simp [loadDataTypeRuleUsingTableOrSchema, otherHitSpec, schemaHitSpec,
          loadTable_eq_spec, hT]
    | cons s ss2 =>
      have hT := loadTable_eq_spec oct b (t :: ts2)
      have hS := loadSchema_eq_spec oct b (s :: ss2)
      by_cases h1 : tableHitSpec oct b (t :: ts2) = b <;>
        by_cases h2 : schemaHitSpec oct b (s :: ss2) = b <;>
        simp [loadDataTypeRuleUsingTableOrSchema, loadDataTypeRuleUsingTableAndSchema,
          otherHitSpec, hT, hS, h1, h2]

/-! ## Claim theorems -/

/-- C1: For every Oracle NUMBER column of scale 0, absent rule-store
overrides, `ReverseOracleTableColumnMapRule` maps precision `p` to the
built-in target: p=0 ↦ DECIMAL(65,30); 1≤p<3 ↦ TINYINT; 3≤p<5 ↦ SMALLINT;
5≤p<9 ↦ INT; 9≤p<19 ↦ BIGINT; 19≤p≤38 ↦ DECIMAL(p); any other p ↦
DECIMAL(p,4); with the boundary precisions 1, 2, 3, 4, 5, 8, 9, 18, 19,
38, 39 yielding TINYINT, TINYINT, SMALLINT, SMALLINT, INT, INT, BIGINT,
BIGINT, DECIMAL(19), DECIMAL(38), DECIMAL(39,4). -/
theorem c1_number_scale_zero_mapping :
    (∀ p : Int, ReverseOracleNumberColumnMapNoRules p 0 =
      if p = 0 then "DECIMAL(65,30)"
      else if 1 ≤ p ∧ p < 3 then "TINYINT"
      else if 3 ≤ p ∧ p < 5 then "SMALLINT"
      else if 5 ≤ p ∧ p < 9 then "INT"
      else if 9 ≤ p ∧ p < 19 then "BIGINT"
      else if 19 ≤ p ∧ p ≤ 38 then "DECIMAL(" ++ toString p ++ ")"
      else "DECIMAL(" ++ toString p ++ ",4)") ∧
    (ReverseOracleNumberColumnMapNoRules 1 0 = "TINYINT" ∧
     ReverseOracleNumberColumnMapNoRules 2 0 = "TINYINT" ∧
     ReverseOracleNumberColumnMapNoRules 3 0 = "SMALLINT" ∧
     ReverseOracleNumberColumnMapNoRules 4 0 = "SMALLINT" ∧
     ReverseOracleNumberColumnMapNoRules 5 0 = "INT" ∧
     ReverseOracleNumberColumnMapNoRules 8 0 = "INT" ∧
     ReverseOracleNumberColumnMapNoRules 9 0 = "BIGINT" ∧
     ReverseOracleNumberColumnMapNoRules 18 0 = "BIGINT" ∧
     ReverseOracleNumberColumnMapNoRules 19 0 = "DECIMAL(19)" ∧
     ReverseOracleNumberColumnMapNoRules 38 0 = "DECIMAL(38)" ∧
     ReverseOracleNumberColumnMapNoRules 39 0 = "DECIMAL(39,4)" ∧
     ReverseOracleNumberColumnMapNoRules 0 0 = "DECIMAL(65,30)") := by
  refine ⟨fun p => ?_, by decide⟩
  have h : ReverseOracleNumberColumnMapNoRules p 0 = numberBuildInColumnType p 0 := rfl
  rw [h]
  unfold numberBuildInColumnType
  split_ifs <;> first | rfl | omega

/-- C2 counterexample: with an empty column-rule slice and a lowercase
table-scope override, `changeOracleTableColumnType` returns the override
verbatim, so the final returned type is not always uppercased as the claim
states. -/
theorem c2_counterexample_not_uppercased :
    changeOracleTableColumnType "C1" "NUMBER" "DECIMAL(38)" [] [⟨"NUMBER", "text"⟩] [] =
      "text" ∧
    changeOracleTableColumnType "C1" "NUMBER" "DECIMAL(38)" [] [⟨"NUMBER", "text"⟩] [] ≠
      strUpper (changeOracleTableColumnType "C1" "NUMBER" "DECIMAL(38)" []
        [⟨"NUMBER", "text"⟩] []) := by
  decide

/-- C2 (amended): the final type resolves with strict precedence
column > table > schema, short-circuiting at the first override differing
from the built-in type, with an empty rule target meaning no override; the
result is uppercased whenever the column-rule slice is non-empty, and
returned without case change when the column-rule slice is empty. -/
theorem c2_precedence_resolution (columnName originColumnType buildInColumnType : String)
    (cs : List ColumnRuleMap) (ts : List TableRuleMap) (ss : List SchemaRuleMap) :
    changeOracleTableColumnType columnName originColumnType buildInColumnType cs ts ss =
      resolveColumnTypeSpec columnName originColumnType buildInColumnType cs ts ss := by
  cases cs with
  | nil =>
    simp [changeOracleTableColumnType, resolveColumnTypeSpec, loadTableOrSchema_eq_spec]
  | cons c rest =>
    have hC := loadColumn_eq_spec columnName originColumnType buildInColumnType (c :: rest)
    have hO := loadTableOrSchema_eq_spec originColumnType buildInColumnType ts ss
    by_cases h1 : columnHitSpec columnName originColumnType buildInColumnType (c :: rest) =
        buildInColumnType <;>
      by_cases h2 : otherHitSpec originColumnType buildInColumnType ts ss =
          buildInColumnType <;>
        simp [changeOracleTableColumnType, resolveColumnTypeSpec, hC, hO, h1, h2]

/-- C3: for a table whose row-count statistic is zero,
`InitWaitAndFullSyncMetaRecord` creates exactly one `full_sync_meta` row
whose rowid predicate is the full-table statement
`SELECT * FROM schema.table`, updates the matching `wait_sync_meta` rows
to the given SCN with `full_split_times = 1` (the row count 0 normalised
to 1), and returns without creating a chunk task. -/
theorem c3_zero_row_planning (env : OracleTableEnv) (db : MetaDB)
    (schemaName tableName : String) (workerID globalSCN : Int)
    (chunkSize insertBatchSize : Nat) (syncMode : String)
    (h : env.tableRows = 0) :
    (InitWaitAndFullSyncMetaRecord env schemaName tableName workerID globalSCN chunkSize
        insertBatchSize syncMode db).fullSyncMetas =
      db.fullSyncMetas ++ [⟨strUpper schemaName, strUpper tableName,
        "SELECT * FROM " ++ schemaName ++ "." ++ tableName, env.isPartition, globalSCN⟩] ∧
    (InitWaitAndFullSyncMetaRecord env schemaName tableName workerID globalSCN chunkSize
        insertBatchSize syncMode db).waitSyncMetas =
      db.waitSyncMetas.map (fun w =>
        if waitKeyMatches w schemaName tableName syncMode then
          { w with fullGlobalSCN := globalSCN, fullSplitTimes := 1, isPartition := env.isPartition }
        else w) ∧
    (InitWaitAndFullSyncMetaRecord env schemaName tableName workerID globalSCN chunkSize
        insertBatchSize syncMode db).chunkTasks = db.chunkTasks := by
  unfold InitWaitAndFullSyncMetaRecord UpdateWaitSyncMetaTableRecord
  simp [h]

/-- C3 witness: planning the zero-row table `S.T` over a store holding one
pristine `wait_sync_meta` row. -/
theorem c3_zero_row_planning_witness :
    ((⟨0, "NO", []⟩ : OracleTableEnv).tableRows = 0) ∧
    ((InitWaitAndFullSyncMetaRecord ⟨0, "NO", []⟩ "S" "T" 1 100 10 5 "full"
        sampleWaitDB).fullSyncMetas =
      sampleWaitDB.fullSyncMetas ++ [⟨strUpper "S", strUpper "T",
        "SELECT * FROM " ++ "S" ++ "." ++ "T",
        (⟨0, "NO", []⟩ : OracleTableEnv).isPartition, 100⟩] ∧
     (InitWaitAndFullSyncMetaRecord ⟨0, "NO", []⟩ "S" "T" 1 100 10 5 "full"
        sampleWaitDB).waitSyncMetas =
      sampleWaitDB.waitSyncMetas.map (fun w =>
        if waitKeyMatches w "S" "T" "full" then
          { w with fullGlobalSCN := 100, fullSplitTimes := 1, isPartition := (⟨0, "NO", []⟩ : OracleTableEnv).isPartition }
        else w) ∧
     (InitWaitAndFullSyncMetaRecord ⟨0, "NO", []⟩ "S" "T" 1 100 10 5 "full"
        sampleWaitDB).chunkTasks = sampleWaitDB.chunkTasks) :=
  ⟨rfl, c3_zero_row_planning ⟨0, "NO", []⟩ sampleWaitDB "S" "T" 1 100 10 5 "full" rfl⟩

/-- C4: at the failing input (3 chunks, insert batch size 1) the planner
inserts 6 `full_sync_meta` rows — the first chunk three times — while
returning a chunk count of 3 and setting `full_split_times` to 3: the
batch buffer is never cleared between batches, so the claim's
one-row-per-chunk and at-most-B-rows-per-batch behaviour (and the
`count = full_split_times = K` round trip the code's own resume check
relies on) fails. -/
theorem c4_chunk_batch_duplicates :
    (InitWaitAndFullSyncMetaRecord ⟨3, "NO", ["c1", "c2", "c3"]⟩ "S" "T" 1 100 1000 1 "full"
        sampleWaitDB).fullSyncMetas.length = 6 ∧
    (InitWaitAndFullSyncMetaRecord ⟨3, "NO", ["c1", "c2", "c3"]⟩ "S" "T" 1 100 1000 1 "full"
        sampleWaitDB).waitSyncMetas.map WaitSyncMeta.fullSplitTimes = [3] ∧
    ((InitWaitAndFullSyncMetaRecord ⟨3, "NO", ["c1", "c2", "c3"]⟩ "S" "T" 1 100 1000 1 "full"
        sampleWaitDB).fullSyncMetas.filter (fun f => f.rowidSQL == "c1")).length = 3 ∧
    (GetOracleTableChunksByRowID "S" "T" 100 1 "NO" ["c1", "c2", "c3"] emptyMetaDB).2 = 3 ∧
    (GetOracleTableChunksByRowID "S" "T" 100 1 "NO" ["c1", "c2", "c3"]
        emptyMetaDB).1.fullSyncMetas.length ≠ 3 := by
  decide

/-- C5: `ModifyWaitAndFullSyncTableMetaRecord` runs as one transaction:
when either statement fails nothing persists (the returned store is the
caller's store), and on success, given that exactly one `full_sync_meta`
row matches the case-insensitive (schema, table, rowid-predicate) key, the
`full_sync_meta` row count drops by exactly one and every matching
`wait_sync_meta` row has `full_split_times` decremented by exactly one. -/
theorem c5_delete_chunk_transactional
    (metaSchemaName sourceSchemaName sourceTableName rowidSQL syncMode : String)
    (failDelete failUpdate : Bool) (db : MetaDB)
    (hone : (db.fullSyncMetas.filter (fun f =>
        fullKeyMatches f sourceSchemaName sourceTableName rowidSQL)).length = 1) :
    ((ModifyWaitAndFullSyncTableMetaRecord metaSchemaName sourceSchemaName sourceTableName
        rowidSQL syncMode failDelete failUpdate db).2 = false →
      (ModifyWaitAndFullSyncTableMetaRecord metaSchemaName sourceSchemaName sourceTableName
        rowidSQL syncMode failDelete failUpdate db).1 = db) ∧
    ((ModifyWaitAndFullSyncTableMetaRecord metaSchemaName sourceSchemaName sourceTableName
        rowidSQL syncMode failDelete failUpdate db).2 = true →
      (ModifyWaitAndFullSyncTableMetaRecord metaSchemaName sourceSchemaName sourceTableName
          rowidSQL syncMode failDelete failUpdate db).1.fullSyncMetas.length + 1 =
        db.fullSyncMetas.length ∧
      (ModifyWaitAndFullSyncTableMetaRecord metaSchemaName sourceSchemaName sourceTableName
          rowidSQL syncMode failDelete failUpdate db).1.waitSyncMetas =
        db.waitSyncMetas.map (fun w =>
          if waitKeyMatches w sourceSchemaName sourceTableName syncMode then
            { w with fullSplitTimes := w.fullSplitTimes - 1 }
          else w)) := by
  cases failDelete with
  | true => simp [ModifyWaitAndFullSyncTableMetaRecord]
  | false =>
    cases failUpdate with
    | true => simp [ModifyWaitAndFullSyncTableMetaRecord]
    | false =>
      have hsplit := fullsync_filter_length sourceSchemaName sourceTableName rowidSQL
        db.fullSyncMetas
      refine ⟨by simp [ModifyWaitAndFullSyncTableMetaRecord], fun _ => ⟨?_, ?_⟩⟩
      · simp [ModifyWaitAndFullSyncTableMetaRecord]
        omega
      · simp [ModifyWaitAndFullSyncTableMetaRecord]

/-- C5 witness: deleting the single chunk `SQL1` of table `S.T` (keys
given in lower case) from a store with split times 3. -/
theorem c5_delete_chunk_transactional_witness :
    ((sampleChunkDB.fullSyncMetas.filter (fun f =>
        fullKeyMatches f "s" "t" "sql1")).length = 1) ∧
    (((ModifyWaitAndFullSyncTableMetaRecord "meta" "s" "t" "sql1" "full" false false
        sampleChunkDB).2 = false →
      (ModifyWaitAndFullSyncTableMetaRecord "meta" "s" "t" "sql1" "full" false false
        sampleChunkDB).1 = sampleChunkDB) ∧
     ((ModifyWaitAndFullSyncTableMetaRecord "meta" "s" "t" "sql1" "full" false false
        sampleChunkDB).2 = true →
      (ModifyWaitAndFullSyncTableMetaRecord "meta" "s" "t" "sql1" "full" false false
          sampleChunkDB).1.fullSyncMetas.length + 1 =
        sampleChunkDB.fullSyncMetas.length ∧
      (ModifyWaitAndFullSyncTableMetaRecord "meta" "s" "t" "sql1" "full" false false
          sampleChunkDB).1.waitSyncMetas =
        sampleChunkDB.waitSyncMetas.map (fun w =>
          if waitKeyMatches w "s" "t" "full" then
            { w with fullSplitTimes := w.fullSplitTimes - 1 }
          else w))) :=
  ⟨by decide, c5_delete_chunk_transactional "meta" "s" "t" "sql1" "full" false false
    sampleChunkDB (by decide)⟩

/-- C6: the check-constraint translator splits on case-insensitive AND/OR
separators, drops clauses matching IS NOT NULL and trims dangling
connectors: the condition `"LOC" IS NOT NULL AND LOC IN ('a','b')` yields
the fragment ``CONSTRAINT `LOC_CK` CHECK (LOC IN ('a','b'))``, and a
condition consisting solely of `"LOC" IS NOT NULL` yields no fragment. -/
theorem c6_check_constraint_examples :
    reverserOracleTableCKToMySQL [("LOC_CK", "\"LOC\" IS NOT NULL AND LOC IN ('a','b')")] =
      some ["CONSTRAINT `LOC_CK` CHECK (LOC IN ('a','b'))"] ∧
    reverserOracleTableCKToMySQL [("LOC_NN", "\"LOC\" IS NOT NULL")] = some [] := by
  decide

/-- C7: `reverserOracleTablePKToMySQL` yields at most one PRIMARY KEY
fragment: two or more catalog rows fail with a multiple-primary-key
error, exactly one row emits the single uppercased fragment
``PRIMARY KEY (`c1`,...)`` over the row's column list, and every
successful result carries at most one fragment. -/
theorem c7_primary_key_at_most_one (sourceSchemaName sourceTableName : String)
    (primaryKeyMap : List String) :
    (2 ≤ primaryKeyMap.length → ∃ e, reverserOracleTablePKToMySQL sourceSchemaName
      sourceTableName primaryKeyMap = Except.error e) ∧
    (∀ columnList, primaryKeyMap = [columnList] →
      reverserOracleTablePKToMySQL sourceSchemaName sourceTableName primaryKeyMap =
        Except.ok (["PRIMARY KEY (" ++ strUpper (joinWith ","
            ((goSplitChar ',' columnList).map (fun col => "`" ++ col ++ "`"))) ++ ")"],
          (goSplitChar ',' columnList).map (fun col => "`" ++ col ++ "`"))) ∧
    (∀ res, reverserOracleTablePKToMySQL sourceSchemaName sourceTableName primaryKeyMap =
      Except.ok res → res.1.length ≤ 1) := by
  refine ⟨?_, ?_, ?_⟩
  · intro h
    match primaryKeyMap, h with
    | a :: b :: l, _ =>
      refine ⟨"oracle schema [" ++ sourceSchemaName ++ "] table [" ++ sourceTableName ++
        "] primary key exist multiple values", ?_⟩
      unfold reverserOracleTablePKToMySQL
      rw [if_pos (by simp only [List.length_cons]; omega)]
  · intro columnList hl
    subst hl
    rfl
  · intro res h
    match primaryKeyMap, h with
    | [], h =>
      have : res = ([], []) := by
        simpa [reverserOracleTablePKToMySQL] using h.symm
      simp [this]
    | [cl], h =>
      have : res.1 = ["PRIMARY KEY (" ++ strUpper (joinWith ","
          ((goSplitChar ',' cl).map (fun col => "`" ++ col ++ "`"))) ++ ")"] := by
        have h2 := h.symm
        simp only [reverserOracleTablePKToMySQL] at h2
        rw [if_neg (by simp)] at h2
        cases h2
        rfl
      simp [this]
    | a :: b :: l, h =>
      exfalso
      unfold reverserOracleTablePKToMySQL at h
      rw [if_pos (by simp only [List.length_cons]; omega)] at h
      cases h

/-- C7 witness: a single catalog row with column list `A,b` yields the
uppercased fragment. -/
theorem c7_primary_key_at_most_one_witness :
    reverserOracleTablePKToMySQL "S" "T" ["A,b"] =
      Except.ok (["PRIMARY KEY (`A`,`B`)"], ["`A`", "`b`"]) :=
  (c7_primary_key_at_most_one "S" "T" ["A,b"]).2.1 "A,b" rfl

/-- C8: at the failing input (collation support on, non-empty table name,
table collation and schema collation both empty) the collation-resolution
prefix of `GenCreateTableSQL` returns the empty collation with no error —
the guard compares the table *name* with the empty string — while at an
empty table name the intended error fires, contrary to the claim that the
both-collations-empty case is always fatal. -/
theorem c8_collation_both_empty_not_fatal :
    GenCreateTableSQLCollation [("BINARY", "utf8mb4_bin")] true "MARVIN" "" "" "BINARY"
        "BINARY" = Except.ok "" ∧
    GenCreateTableSQLCollation [("BINARY", "utf8mb4_bin")] true "" "" "" "BINARY"
        "BINARY" =
      Except.error "oracle schema collation [] table collation [] isn't support" :=
  ⟨rfl, rfl⟩

theorem mapReplaceQuotes_id (l : List Char) (h : l.any (fun ch => ch == '"') = false) :
    l.map (fun c => if c == '"' then singleQuoteChar else c) = l := by
  induction l with
  | nil => rfl
  | cons c t ih =>
    simp only [List.any_cons, Bool.or_eq_false_iff] at h
    rw [List.map_cons, if_neg (by simp [h.1]), ih h.2]

theorem replaceQuotes_id (s : String) (h : s.data.any (fun ch => ch == '"') = false) :
    replaceQuotes s = s := by
  obtain ⟨l⟩ := s
  unfold replaceQuotes
  congr 1
  exact mapReplaceQuotes_id l h

/-- C9 counterexample: the claim's own example is wrong: for column PRICE
(`DECIMAL(10,2)`, nullable N, comment `"retail"`, default 0) the code
replaces the double quotes by single quotes and wraps the post-substitution
comment `'retail'` in double quotes, producing
`COMMENT "'retail'"`, not the claimed `COMMENT '"retail"'`. -/
theorem c9_comment_example_counterexample :
    generateOracleTableColumnMeta "PRICE" "DECIMAL(10,2)" "N" "\"retail\"" "0" [] =
      "`PRICE` DECIMAL(10,2) NOT NULL DEFAULT 0 COMMENT \"'retail'\"" ∧
    generateOracleTableColumnMeta "PRICE" "DECIMAL(10,2)" "N" "\"retail\"" "0" [] ≠
      "`PRICE` DECIMAL(10,2) NOT NULL DEFAULT 0 COMMENT '\"retail\"'" := by
  decide

/-- C9 (amended): every double quote in a non-empty comment is replaced by
a single quote and the result is wrapped in double quotes exactly when the
post-substitution comment matches `'(.*)'`, otherwise in single quotes;
the PRICE example therefore produces
``\`PRICE\` DECIMAL(10,2) NOT NULL DEFAULT 0 COMMENT "'retail'"``. -/
theorem c9_comment_wrapping (comments : String) (h : comments ≠ "") :
    genColumnCommentFragment comments =
      (if matchQuoteSpan (replaceQuotes comments) then
        "\"" ++ replaceQuotes comments ++ "\""
      else "'" ++ replaceQuotes comments ++ "'") ∧
    generateOracleTableColumnMeta "PRICE" "DECIMAL(10,2)" "N" "\"retail\"" "0" [] =
      "`PRICE` DECIMAL(10,2) NOT NULL DEFAULT 0 COMMENT \"'retail'\"" := by
  refine ⟨?_, by decide⟩
  unfold genColumnCommentFragment
  rw [if_pos h]
  cases hq : comments.data.any (fun ch => ch == '"') with
  | true => simp [hq]
  | false => simp [hq, replaceQuotes_id comments hq]

/-- C9 witness: the comment `x"y` is non-empty; its fragment follows the
amended wrapping rule. -/
theorem c9_comment_wrapping_witness :
    (("x\"y" : String) ≠ "") ∧
    (genColumnCommentFragment "x\"y" =
      (if matchQuoteSpan (replaceQuotes "x\"y") then
        "\"" ++ replaceQuotes "x\"y" ++ "\""
      else "'" ++ replaceQuotes "x\"y" ++ "'") ∧
    generateOracleTableColumnMeta "PRICE" "DECIMAL(10,2)" "N" "\"retail\"" "0" [] =
      "`PRICE` DECIMAL(10,2) NOT NULL DEFAULT 0 COMMENT \"'retail'\"") :=
  ⟨by decide, c9_comment_wrapping "x\"y" (by decide)⟩

/-- C10 counterexample: on the condition
`"A" IS NOT NULL AND "B" IS NOT NULL` — a connector condition whose every
clause matches IS NOT NULL — the filtered token slice `d` is empty and the
Go indexing `d[0]` is out of range, so `reverserOracleTableCKToMySQL` does
not return normally (modelled as `none`). -/
theorem c10_ck_counterexample :
    reverserOracleTableCKToMySQL [("CK1", "\"A\" IS NOT NULL AND \"B\" IS NOT NULL")] =
      none := by
  decide

theorem ckRow_safe (constraintName searchCondition : String)
    (h : ckPanics searchCondition = false) :
    ∃ fs, ckRow constraintName searchCondition = some fs ∧ fs.length ≤ 1 := by
  unfold ckPanics at h
  unfold ckRow
  cases hr : rMatch (trimGo searchCondition) with
  | false =>
    cases hm : matchRexMatch (trimGo searchCondition) with
    | true => exact ⟨[], by simp [hr, hm]⟩
    | false =>
      exact ⟨["CONSTRAINT `" ++ strUpper constraintName ++ "` CHECK (" ++
        searchCondition ++ ")"], by simp [hr, hm]⟩
  | true =>
    rw [hr] at h
    simp only [Bool.true_and] at h
    unfold ckRowConnectorBranch
    cases hd : ckD (goFields (trimGo searchCondition)) with
    | nil => rw [hd] at h; cases h
    | cons d0 rest =>
      rw [hd] at h
      cases rest with
      | nil =>
        have hc : isConn d0 = false := h
        refine ⟨["CONSTRAINT `" ++ strUpper constraintName ++ "` CHECK (" ++
          joinWith " " [d0] ++ ")"], ?_⟩
        simp [hr, hd, hc, List.getLast?]
      | cons d1 rest2 =>
        have hne : (if isConn d0 then d1 :: rest2 else d0 :: d1 :: rest2) ≠ [] := by
          cases isConn d0 <;> simp
        obtain ⟨dn, hdn⟩ := Option.isSome_iff_exists.mp
          (List.getLast?_isSome.mpr hne)
        refine ⟨["CONSTRAINT `" ++ strUpper constraintName ++ "` CHECK (" ++
          joinWith " " (if isConn dn then
            (if isConn d0 then d1 :: rest2 else d0 :: d1 :: rest2).dropLast
          else (if isConn d0 then d1 :: rest2 else d0 :: d1 :: rest2)) ++ ")"], ?_⟩
        simp [hr, hd, hdn]

/-- C10 (amended): `reverserOracleTableCKToMySQL` returns normally with at
most one CHECK fragment per catalog row for every input in which no row's
connector-split condition filters down to an empty (or single dangling
connector) token list; on such a row — e.g. when every clause matches
IS NOT NULL — the Go slice indexing is out of range. -/
theorem c10_ck_totality (rows : List (String × String))
    (h : ∀ r ∈ rows, ckPanics r.2 = false) :
    ∃ ks, reverserOracleTableCKToMySQL rows = some ks ∧ ks.length ≤ rows.length := by
  induction rows with
  | nil => exact ⟨[], rfl, by simp⟩
  | cons r rs ih =>
    obtain ⟨fs, hfs, hlen⟩ := ckRow_safe r.1 r.2 (h r (by simp))
    obtain ⟨ks, hks, hklen⟩ := ih (fun x hx => h x (by simp [hx]))
    refine ⟨fs ++ ks, ?_, ?_⟩
    · simp only [reverserOracleTableCKToMySQL, hfs, hks]
    · simp only [List.length_append, List.length_cons]
      omega

/-- C10 witness: a two-clause condition with a surviving clause is safe
and yields at most one fragment. -/
theorem c10_ck_totality_witness :
    (∀ r ∈ [(("CK2", "A > 1 AND B > 2") : String × String)], ckPanics r.2 = false) ∧
    (∃ ks, reverserOracleTableCKToMySQL [("CK2", "A > 1 AND B > 2")] = some ks ∧
      ks.length ≤ ([(("CK2", "A > 1 AND B > 2") : String × String)]).length) :=
  ⟨by decide, c10_ck_totality [("CK2", "A > 1 AND B > 2")] (by decide)⟩
